import Mathlib

/-!
Verification of the WolfTeX kernel-service core (`src/wolframKernelService.ts`)
against its natural-language specification.

The development shallowly embeds the `WolframKernelService` class: JSON values
are an inductive type, the mutable fields of the class become a `ServiceState`
record, and each method becomes a state-passing function.  The behaviour of the
external kernel process is a parameter (`Except TransportFailure Json`): a
method that performs a socket exchange receives the outcome of that exchange as
an argument.  JavaScript string primitives (`trim`, `startsWith`, `includes`,
`split`) are reimplemented over `List Char` so that every definition evaluates
inside the kernel.
-/

namespace WolfTeX

/-- Runtime JSON values, the shape of everything travelling over the
newline-delimited JSON protocol (`Response` in the spec's data model). -/
inductive Json where
  | null
  | bool (b : Bool)
  | num (n : Int)
  | str (s : String)
  | arr (elems : List Json)
  | obj (fields : List (String × Json))

/-- ASCII whitespace recognised by `String.prototype.trim`. -/
def isJsWhitespace (c : Char) : Bool :=
  c = ' ' || c = '\t' || c = '\n' || c = '\r' || c = '\x0b' || c = '\x0c'

/-- `String.prototype.trim`: drop leading and trailing whitespace. -/
def jsTrim (s : String) : String :=
  ⟨((s.data.dropWhile isJsWhitespace).reverse.dropWhile isJsWhitespace).reverse⟩

/-- Does the first character list start with the second one? -/
def startsWithChars : List Char → List Char → Bool
  | _, [] => true
  | [], _ :: _ => false
  | c :: cs, d :: ds => c = d && startsWithChars cs ds

/-- `String.prototype.startsWith`. -/
def jsStartsWith (s pat : String) : Bool := startsWithChars s.data pat.data

/-- Does the first character list contain the second as a contiguous run? -/
def hasSubChars : List Char → List Char → Bool
  | [], pat => pat.isEmpty
  | c :: cs, pat => startsWithChars (c :: cs) pat || hasSubChars cs pat

/-- `String.prototype.includes`. -/
def jsIncludes (s pat : String) : Bool := hasSubChars s.data pat.data

/-- The literal failure sentinel the kernel's structured channel returns
(`wolframKernelService.ts:235`). -/
def evaluationFailedSentinel : String := "Error: Evaluation failed"

/-- Mirror of the strict-equality test `result === "Error: Evaluation failed"`:
a JSON value is the sentinel only when it is exactly that string. -/
def isSentinel : Json → Bool
  | .str s => s == evaluationFailedSentinel
  | _ => false

/-- The candidate error lines scanned out of `currentEvaluationOutputs` on a
sentinel response (`wolframKernelService.ts:241-243`): trim each captured line,
then keep the non-empty ones that do not start with a diagnostic-log marker. -/
def errorCandidates (outputs : List String) : List String :=
  (outputs.map jsTrim).filter fun s =>
    s.length > 0 && !(jsStartsWith s "[Kernel]") &&
      !(jsStartsWith s "STDOUT:") && !(jsStartsWith s "STDERR:")

/-- The sentinel-recovery step of `evaluate` (`wolframKernelService.ts:235-251`):
on the exact sentinel, pick the first candidate containing `::`, else the first
candidate, and return `"Error: " ++` it; with no candidates, or on any other
response, return the structured response unchanged.  (The 100 ms grace period
before the scan is timing behaviour and is not part of the value computed.) -/
def enrichFailedEvaluation (outputs : List String) (result : Json) : Json :=
  if isSentinel result then
    let errorMessages := errorCandidates outputs
    if errorMessages.length > 0 then
      Json.str ("Error: " ++
        ((errorMessages.find? fun s => jsIncludes s "::").getD (errorMessages.headD "")))
    else result
  else result

/-- Evaluation mode, `'plain' | 'latex'` in the source. -/
inductive WolframEvaluationMode where
  | plain
  | latex

/-- The partial-configuration argument of `updateConfig`; `none` is an absent
(`undefined`) field. -/
structure WolframConfig where
  wolframPath : Option String := none
  imageDirectory : Option String := none
  imageResolution : Option Int := none

/-- The mutable fields of `WolframKernelService` that the claims are about.
`processAlive` is `this.process !== undefined`; `port = none` is
`this.port === undefined`.  `isEvaluating` / `currentEvaluationOutputs` are
modelled per-call: the lines captured during an evaluation window are passed to
`evaluate` directly. -/
structure ServiceState where
  disposed : Bool
  port : Option Nat
  processAlive : Bool
  systemNames : List Json
  wolframPath : String
  imageDirectory : String
  imageResolution : Int

/-- Field values a fresh service starts from (`wolframKernelService.ts:15-28`). -/
def initialServiceState : ServiceState where
  disposed := false
  port := none
  processAlive := false
  systemNames := []
  wolframPath := "wolframscript"
  imageDirectory := "wolf_image"
  imageResolution := 150

/-- A convenient started state: port discovered, process running. -/
def readyState (p : Nat) : ServiceState :=
  { initialServiceState with port := some p, processAlive := true }

/-- The tagged request objects written to the socket. -/
inductive Request where
  | evaluateReq (code : String) (mode : WolframEvaluationMode) (cwd filename : String)
  | completionReq
  | usageReq (name : String)

/-- Failures of one socket exchange: connection-level error or a response that
fails `JSON.parse`. -/
inductive TransportFailure where
  | socketError
  | parseError
deriving DecidableEq

/-- The errors with which `sendRequest` can reject. -/
inductive ReqError where
  | disposedError
  | notRunningError
  | transportError (e : TransportFailure)
deriving DecidableEq

/-- Observable suspension / IO points inside `sendRequest`, in order. -/
inductive ReqEvent where
  | awaitInit
  | openSocket
deriving DecidableEq

/-- `sendRequest` (`wolframKernelService.ts:178-224`): reject when disposed,
then await initialization, then reject when no port is known, else perform one
socket exchange whose outcome is the `transport` parameter.  The first
component records which suspension / IO points were reached. -/
def sendRequest (s : ServiceState) (req : Request) (transport : Except TransportFailure Json) :
    List ReqEvent × Except ReqError Json :=
  if s.disposed then
    ([], Except.error ReqError.disposedError)
  else if s.port = none then
    ([ReqEvent.awaitInit], Except.error ReqError.notRunningError)
  else
    ([ReqEvent.awaitInit, ReqEvent.openSocket], transport.mapError ReqError.transportError)

/-- `getSystemNames` (`wolframKernelService.ts:151-166`).  Returns the new
state, the returned name list, and whether a completion request was sent (the
cache-miss path entered `sendRequest`). -/
def getSystemNames (s : ServiceState) (transport : Except TransportFailure Json) :
    ServiceState × List Json × Bool :=
  if s.systemNames.length > 0 then
    (s, s.systemNames, false)
  else
    match (sendRequest s Request.completionReq transport).2 with
    | Except.ok (Json.arr names) => ({ s with systemNames := names }, names, true)
    | Except.ok _ => (s, [], true)
    | Except.error _ => (s, [], true)

/-- `getFunctionUsage` (`wolframKernelService.ts:168-176`): string results pass
through, non-string results and every failure collapse to `""`. -/
def getFunctionUsage (s : ServiceState) (name : String)
    (transport : Except TransportFailure Json) : String :=
  match (sendRequest s (Request.usageReq name) transport).2 with
  | Except.ok (Json.str usage) => usage
  | Except.ok _ => ""
  | Except.error _ => ""

/-- `evaluate` (`wolframKernelService.ts:227-255`): send the evaluate request
(`cwd || ''`, `filename || ''`), then run sentinel recovery over the lines
captured while the evaluation was in flight; transport-level failures
propagate. -/
def evaluate (s : ServiceState) (code : String) (mode : WolframEvaluationMode)
    (cwd filename : Option String) (transport : Except TransportFailure Json)
    (captured : List String) : Except ReqError Json :=
  match (sendRequest s (Request.evaluateReq code mode (cwd.getD "") (filename.getD ""))
      transport).2 with
  | Except.ok result => Except.ok (enrichFailedEvaluation captured result)
  | Except.error e => Except.error e

/-- `dispose` (`wolframKernelService.ts:257-265`): set the disposed flag and, if
a process handle is present, kill it and clear the handle.  The boolean reports
whether a kill signal was sent by this call.  Note the port is not cleared
here (the process-exit callback clears it asynchronously). -/
def dispose (s : ServiceState) : ServiceState × Bool :=
  let s1 := { s with disposed := true }
  if s1.processAlive then
    ({ s1 with processAlive := false }, true)
  else
    (s1, false)

/-- `restart` (`wolframKernelService.ts:56-67`), successful path: dispose, clear
the disposed flag, start a new kernel that announces `newPort`, then call
`getSystemNames` once.  The second component counts the completion requests
that call sent. -/
def restart (s : ServiceState) (newPort : Nat) (transport : Except TransportFailure Json) :
    ServiceState × Nat :=
  let s1 := (dispose s).1
  let s2 := { s1 with disposed := false }
  let s3 := { s2 with processAlive := true, port := some newPort }
  let r := getSystemNames s3 transport
  (r.1, if r.2.2 then 1 else 0)

/-- JavaScript truthiness of an optional string field: present and non-empty. -/
def jsTruthy : Option String → Bool
  | some s => !s.data.isEmpty
  | none => false

/-- `updateConfig` (`wolframKernelService.ts:42-53`): merge truthy string fields
and any `number`-typed resolution into the stored configuration; the boolean
reports whether a restart was triggered (`restartKernel && config.wolframPath
&& config.wolframPath !== prevPath`). -/
def updateConfig (s : ServiceState) (config : WolframConfig) (restartKernel : Bool) :
    ServiceState × Bool :=
  let prevPath := s.wolframPath
  let s1 := match config.wolframPath with
    | some p => if !p.data.isEmpty then { s with wolframPath := p } else s
    | none => s
  let s2 := match config.imageDirectory with
    | some d => if !d.data.isEmpty then { s1 with imageDirectory := d } else s1
    | none => s1
  let s3 := match config.imageResolution with
    | some n => { s2 with imageResolution := n }
    | none => s2
  let trigger := restartKernel &&
    (match config.wolframPath with
     | some p => !p.data.isEmpty && p != prevPath
     | none => false)
  (s3, trigger)

/-- The closure state of the stdout listener installed by `startKernel`
(`wolframKernelService.ts:124-147`): the accumulating buffer and the
`portFound` flag, together with the `this.port` assignment and the `resolve()`
call that happen on the first match. -/
structure PortScanState where
  stdoutBuffer : String
  portFound : Bool
  port : Option Nat
  resolved : Bool
deriving DecidableEq

/-- Scan state before any stdout chunk arrives. -/
def initialScanState : PortScanState :=
  { stdoutBuffer := "", portFound := false, port := none, resolved := false }

/-- The characters of the literal port marker in the regex `/PORT:(\d+)/`. -/
def portMarker : List Char := ['P', 'O', 'R', 'T', ':']

/-- `parseInt(digits, 10)` on a non-empty run of decimal digits. -/
def decimalValue (ds : List Char) : Nat :=
  ds.foldl (fun acc c => acc * 10 + (c.toNat - 48)) 0

/-- First match of `/PORT:(\d+)/`: the leftmost position where the literal
marker is followed by at least one digit wins, and its maximal digit run is the
captured group. -/
def findPortIn : List Char → Option Nat
  | [] => none
  | c :: rest =>
    if startsWithChars (c :: rest) portMarker then
      let digits := ((c :: rest).drop 5).takeWhile Char.isDigit
      if digits.isEmpty then findPortIn rest
      else some (decimalValue digits)
    else findPortIn rest

/-- `buffer.match(/PORT:(\d+)/)` followed by `parseInt(match[1], 10)`. -/
def findPortMatch (s : String) : Option Nat := findPortIn s.data

/-- One `data` callback of the stdout listener, port-discovery part: while the
port is not yet found, append the chunk to the accumulating buffer and scan it;
on a match fix the port, set `portFound` and resolve the startup promise.  Once
found, chunks are not appended or scanned. -/
def stdoutStep (st : PortScanState) (chunk : String) : PortScanState :=
  if st.portFound then st
  else
    let buffer := st.stdoutBuffer ++ chunk
    match findPortMatch buffer with
    | some n => { stdoutBuffer := buffer, portFound := true, port := some n, resolved := true }
    | none => { st with stdoutBuffer := buffer }

/-- Feed a whole sequence of stdout chunks through the listener. -/
def runScan (chunks : List String) : PortScanState :=
  chunks.foldl stdoutStep initialScanState

/-- Concatenation of a chunk sequence, in arrival order. -/
def joinAll : List String → String
  | [] => ""
  | c :: cs => c ++ joinAll cs

/-- Result of one `data` callback of the per-request socket
(`wolframKernelService.ts:200-218`): the accumulated response buffer, whether
`socket.end()` was invoked, and how the request promise was settled (if at
all). -/
structure SocketDataResult where
  responseBuffer : String
  socketEnded : Bool
  settled : Option (Except String Json)

/-- Everything before the first newline: `responseBuffer.split('\n')[0]`. -/
def firstLine (s : String) : String := ⟨s.data.takeWhile (fun c => c != '\n')⟩

/-- `responseBuffer.includes('\n')`. -/
def containsNewline (s : String) : Bool := s.data.any (fun c => c == '\n')

/-- One `data` callback of the per-request socket: append the chunk; once a
newline is present, run `JSON.parse` (the `parseJson` oracle) on the first
line; on success end the socket and resolve, on failure reject — without
ending the socket. -/
def onSocketData (parseJson : String → Option Json) (responseBuffer chunk : String) :
    SocketDataResult :=
  let buffer := responseBuffer ++ chunk
  if containsNewline buffer then
    let responseStr := firstLine buffer
    match parseJson responseStr with
    | some result => { responseBuffer := buffer, socketEnded := true,
                       settled := some (Except.ok result) }
    | none => { responseBuffer := buffer, socketEnded := false,
                settled := some (Except.error responseStr) }
  else
    { responseBuffer := buffer, socketEnded := false, settled := none }

/-- Modelled from the claim's words (C7), for comparison with `updateConfig`:
an unchanged supplied path triggers no restart; a changed supplied path with
restart enabled triggers one; every non-`undefined` field of the partial
configuration is merged and absent fields keep their previous values. -/
def updateConfigClaimedBehavior (s : ServiceState) (config : WolframConfig)
    (restartKernel : Bool) : Prop :=
  (config.wolframPath = some s.wolframPath →
    (updateConfig s config restartKernel).2 = false) ∧
  (∀ p, config.wolframPath = some p → p ≠ s.wolframPath → restartKernel = true →
    (updateConfig s config restartKernel).2 = true) ∧
  (∀ p, config.wolframPath = some p →
    (updateConfig s config restartKernel).1.wolframPath = p) ∧
  (config.wolframPath = none →
    (updateConfig s config restartKernel).1.wolframPath = s.wolframPath) ∧
  (∀ d, config.imageDirectory = some d →
    (updateConfig s config restartKernel).1.imageDirectory = d) ∧
  (config.imageDirectory = none →
    (updateConfig s config restartKernel).1.imageDirectory = s.imageDirectory) ∧
  (∀ n, config.imageResolution = some n →
    (updateConfig s config restartKernel).1.imageResolution = n) ∧
  (config.imageResolution = none →
    (updateConfig s config restartKernel).1.imageResolution = s.imageResolution)

/-! ## Helper lemmas -/

/-- A value distinct from `Json.str evaluationFailedSentinel` fails the
strict-equality sentinel test. -/
theorem isSentinel_eq_false {result : Json}
    (h : result ≠ Json.str evaluationFailedSentinel) : isSentinel result = false := by
  cases result with
  | str s =>
    simp only [isSentinel, beq_eq_false_iff_ne, ne_eq]
    intro hs
    exact h (by rw [hs])
  | null => rfl
  | bool b => rfl
  | num n => rfl
  | arr elems => rfl
  | obj fields => rfl

/-- `dispose` always leaves the disposed flag set. -/
theorem dispose_disposed (s : ServiceState) : (dispose s).1.disposed = true := by
  cases h : s.processAlive <;> simp [dispose, h]

/-- The state `dispose` produces, in closed form. -/
theorem dispose_state (s : ServiceState) :
    (dispose s).1 = { s with disposed := true, processAlive := false } := by
  cases h : s.processAlive <;> simp [dispose, h]

/-- With an empty cache, `getSystemNames` always enters the request path. -/
theorem getSystemNames_requested_of_empty (s : ServiceState)
    (t : Except TransportFailure Json) (hs : s.systemNames = []) :
    (getSystemNames s t).2.2 = true := by
  unfold getSystemNames
  rw [hs]
  cases h : (sendRequest s Request.completionReq t).2 with
  | error e => simp [h]
  | ok j => cases j <;> simp [h]

/-! ## Claim theorems -/

/-- Claim C6: `dispose` is idempotent — after a first `dispose`, a second call
returns the very same state and sends no second kill signal. -/
theorem dispose_idempotent (s : ServiceState) :
    dispose (dispose s).1 = ((dispose s).1, false) := by
  cases h : s.processAlive <;> simp [dispose, h]

/-- Claim C4: a request of any type on a disposed service is rejected with the
disposed error before awaiting initialization and without opening a socket
(empty event list); a request on a non-disposed service with no port is
rejected with the kernel-not-running error after awaiting initialization but
without opening a socket.  The third conjunct ties the first to `dispose`. -/
theorem sendRequest_rejects_disposed_and_portless (s : ServiceState) (req : Request)
    (t : Except TransportFailure Json) :
    (s.disposed = true →
      sendRequest s req t = ([], Except.error ReqError.disposedError)) ∧
    (s.disposed = false → s.port = none →
      sendRequest s req t = ([ReqEvent.awaitInit], Except.error ReqError.notRunningError)) ∧
    (∀ s' : ServiceState,
      sendRequest (dispose s').1 req t = ([], Except.error ReqError.disposedError)) := by
  refine ⟨fun h => by simp [sendRequest, h], fun h1 h2 => by simp [sendRequest, h1, h2],
    fun s' => by simp [sendRequest, dispose_disposed s']⟩

/-- Witness for C4 at concrete inputs: a disposed service and a port-less
service. -/
theorem sendRequest_rejects_disposed_and_portless_witness :
    sendRequest { initialServiceState with disposed := true } Request.completionReq
        (Except.ok Json.null) = ([], Except.error ReqError.disposedError) ∧
    sendRequest initialServiceState (Request.usageReq "Sin") (Except.ok Json.null) =
        ([ReqEvent.awaitInit], Except.error ReqError.notRunningError) :=
  ⟨(sendRequest_rejects_disposed_and_portless
      { initialServiceState with disposed := true } Request.completionReq
      (Except.ok Json.null)).1 rfl,
   (sendRequest_rejects_disposed_and_portless initialServiceState
      (Request.usageReq "Sin") (Except.ok Json.null)).2.1 rfl rfl⟩

/-- Claim C5: `getFunctionUsage` returns `""` and `getSystemNames` returns `[]`
on every failure mode — disposed service, no port after initialization, and
transport failure (connection or parse error); neither raises (both are total
functions into plain values). -/
theorem facade_swallows_failures (s : ServiceState) (name : String)
    (t : Except TransportFailure Json) (tf : TransportFailure) :
    (s.disposed = true → getFunctionUsage s name t = "") ∧
    (s.port = none → getFunctionUsage s name t = "") ∧
    (getFunctionUsage s name (Except.error tf) = "") ∧
    (s.systemNames = [] → s.disposed = true → (getSystemNames s t).2.1 = []) ∧
    (s.systemNames = [] → s.port = none → (getSystemNames s t).2.1 = []) ∧
    (s.systemNames = [] → (getSystemNames s (Except.error tf)).2.1 = []) := by
  refine ⟨?_, ?_, ?_, ?_, ?_, ?_⟩
  · intro hd
    simp [getFunctionUsage, sendRequest, hd]
  · intro hp
    by_cases hd : s.disposed <;> simp [getFunctionUsage, sendRequest, hd, hp]
  · by_cases hd : s.disposed
    · simp [getFunctionUsage, sendRequest, hd]
    · by_cases hp : s.port = none <;>
        simp [getFunctionUsage, sendRequest, hd, hp, Except.mapError]
  · intro hs hd
    simp [getSystemNames, sendRequest, hs, hd]
  · intro hs hp
    by_cases hd : s.disposed <;> simp [getSystemNames, sendRequest, hs, hd, hp]
  · intro hs
    by_cases hd : s.disposed
    · simp [getSystemNames, sendRequest, hs, hd]
    · by_cases hp : s.port = none <;>
        simp [getSystemNames, sendRequest, hs, hd, hp, Except.mapError]

/-- Witness for C5 at concrete inputs: disposed service, socket failure, parse
failure. -/
theorem facade_swallows_failures_witness :
    getFunctionUsage { initialServiceState with disposed := true } "Sin"
        (Except.ok Json.null) = "" ∧
    getFunctionUsage (readyState 9000) "Sin" (Except.error TransportFailure.socketError) = "" ∧
    (getSystemNames (readyState 9000) (Except.error TransportFailure.parseError)).2.1 = [] :=
  ⟨(facade_swallows_failures { initialServiceState with disposed := true } "Sin"
      (Except.ok Json.null) TransportFailure.socketError).1 rfl,
   (facade_swallows_failures (readyState 9000) "Sin" (Except.ok Json.null)
      TransportFailure.socketError).2.2.1,
   (facade_swallows_failures (readyState 9000) "Sin" (Except.ok Json.null)
      TransportFailure.parseError).2.2.2.2.2 rfl⟩

/-- Claim C8: any structured response that is not exactly the sentinel string is
returned verbatim by `evaluate` — including non-string JSON values (numbers,
null, arrays, objects), with no validation against the declared string result
type. -/
theorem evaluate_returns_nonsentinel_verbatim (s : ServiceState) (p : Nat) (code : String)
    (mode : WolframEvaluationMode) (cwd filename : Option String)
    (captured : List String) (result : Json)
    (hd : s.disposed = false) (hp : s.port = some p)
    (hns : result ≠ Json.str evaluationFailedSentinel) :
    evaluate s code mode cwd filename (Except.ok result) captured = Except.ok result := by
  have h := isSentinel_eq_false hns
  simp [evaluate, sendRequest, hd, hp, Except.mapError, enrichFailedEvaluation, h]

/-- Witness for C8 at concrete inputs: a JSON number and JSON null pass through
unvalidated. -/
theorem evaluate_returns_nonsentinel_verbatim_witness :
    evaluate (readyState 9000) "1+1" WolframEvaluationMode.plain none none
        (Except.ok (Json.num 2)) [] = Except.ok (Json.num 2) ∧
    evaluate (readyState 9000) "Null" WolframEvaluationMode.latex none none
        (Except.ok Json.null) ["line"] = Except.ok Json.null :=
  ⟨evaluate_returns_nonsentinel_verbatim (readyState 9000) 9000 "1+1"
      WolframEvaluationMode.plain none none [] (Json.num 2) rfl rfl (by simp),
   evaluate_returns_nonsentinel_verbatim (readyState 9000) 9000 "Null"
      WolframEvaluationMode.latex none none ["line"] Json.null rfl rfl (by simp)⟩

/-- Claim C9: `getSystemNames` stores an empty completion result but the cache
test (`length > 0`) never accepts it, so the next call requests again; a call
is served from the cache without a request exactly when the cache is
non-empty. -/
theorem getSystemNames_memoizes_only_nonempty (s : ServiceState) (p : Nat)
    (t : Except TransportFailure Json)
    (hs : s.systemNames = []) (hd : s.disposed = false) (hp : s.port = some p) :
    (getSystemNames s (Except.ok (Json.arr []))).1.systemNames = [] ∧
    (getSystemNames s (Except.ok (Json.arr []))).2.2 = true ∧
    (getSystemNames (getSystemNames s (Except.ok (Json.arr []))).1 t).2.2 = true ∧
    (∀ s' : ServiceState, ((getSystemNames s' t).2.2 = false ↔ s'.systemNames ≠ [])) := by
  have hstore :
      (getSystemNames s (Except.ok (Json.arr []))).1.systemNames = [] := by
    simp [getSystemNames, sendRequest, hs, hd, hp, Except.mapError]
  refine ⟨hstore, getSystemNames_requested_of_empty s _ hs,
    getSystemNames_requested_of_empty _ t hstore, ?_⟩
  intro s'
  cases hn : s'.systemNames with
  | nil =>
    have := getSystemNames_requested_of_empty s' t hn
    simp [this, hn]
  | cons a l =>
    simp [getSystemNames, hn]

/-- Witness for C9 at a concrete input: an empty completion response on a ready
service. -/
theorem getSystemNames_memoizes_only_nonempty_witness :
    (getSystemNames (readyState 9000) (Except.ok (Json.arr []))).1.systemNames = [] ∧
    (getSystemNames (readyState 9000) (Except.ok (Json.arr []))).2.2 = true :=
  ⟨(getSystemNames_memoizes_only_nonempty (readyState 9000) 9000 (Except.ok Json.null)
      rfl rfl rfl).1,
   (getSystemNames_memoizes_only_nonempty (readyState 9000) 9000 (Except.ok Json.null)
      rfl rfl rfl).2.1⟩

/-- Claim C10: the per-request socket is ended exactly on the successful-parse
path; a response line that fails to parse settles the request with a rejection
while leaving the socket open. -/
theorem socket_kept_open_on_parse_failure (parseJson : String → Option Json)
    (responseBuffer chunk : String) :
    ((onSocketData parseJson responseBuffer chunk).socketEnded = true ↔
      ∃ v, (onSocketData parseJson responseBuffer chunk).settled = some (Except.ok v)) ∧
    (containsNewline (responseBuffer ++ chunk) = true →
      parseJson (firstLine (responseBuffer ++ chunk)) = none →
      (onSocketData parseJson responseBuffer chunk).settled =
          some (Except.error (firstLine (responseBuffer ++ chunk))) ∧
        (onSocketData parseJson responseBuffer chunk).socketEnded = false) := by
  by_cases hn : containsNewline (responseBuffer ++ chunk) = true
  · cases hp : parseJson (firstLine (responseBuffer ++ chunk)) with
    | none =>
      refine ⟨by simp [onSocketData, hn, hp], fun _ _ => ?_⟩
      simp [onSocketData, hn, hp]
    | some v =>
      refine ⟨by simp [onSocketData, hn, hp], fun _ hpn => ?_⟩
      exact absurd hpn (by simp)
  · refine ⟨by simp [onSocketData, hn], fun hcn => absurd hcn hn⟩

/-- Witness for C10 at a concrete input: an always-failing parser and a
newline-terminated chunk. -/
theorem socket_kept_open_on_parse_failure_witness :
    (onSocketData (fun _ => none) "" "x\n").settled = some (Except.error "x") ∧
    (onSocketData (fun _ => none) "" "x\n").socketEnded = false := by
  have h := (socket_kept_open_on_parse_failure (fun _ => none) "" "x\n").2 (by decide) rfl
  have e : firstLine ("" ++ "x\n") = "x" := by decide
  rw [e] at h
  exact h

/-- Claim C1: on the exact sentinel response, `evaluate` returns `"Error: "`
followed by the best candidate among the trimmed, non-empty, non-diagnostic
captured lines — the first containing `::`, else the first — and the sentinel
itself when no candidate exists. -/
theorem evaluate_enriches_sentinel_response (s : ServiceState) (p : Nat) (code : String)
    (mode : WolframEvaluationMode) (cwd filename : Option String) (captured : List String)
    (hd : s.disposed = false) (hp : s.port = some p) :
    (errorCandidates captured = [] →
      evaluate s code mode cwd filename (Except.ok (Json.str evaluationFailedSentinel))
        captured = Except.ok (Json.str evaluationFailedSentinel)) ∧
    (∀ c cs, errorCandidates captured = c :: cs →
      evaluate s code mode cwd filename (Except.ok (Json.str evaluationFailedSentinel))
        captured = Except.ok (Json.str ("Error: " ++
          (((c :: cs).find? fun m => jsIncludes m "::").getD c)))) := by
  have hsent : isSentinel (Json.str evaluationFailedSentinel) = true := by
    simp [isSentinel]
  constructor
  · intro h0
    simp [evaluate, sendRequest, hd, hp, Except.mapError, enrichFailedEvaluation, hsent, h0]
  · intro c cs hcs
    simp [evaluate, sendRequest, hd, hp, Except.mapError, enrichFailedEvaluation, hsent, hcs]

/-- Witness for C1 at the spec's concrete input: the diagnostic line and the
empty line are excluded and the first line containing `::` wins. -/
theorem evaluate_enriches_sentinel_response_witness :
    evaluate (readyState 9000) "1/0" WolframEvaluationMode.plain none none
        (Except.ok (Json.str evaluationFailedSentinel))
        ["[Kernel] debug", "", "Power::infy: message", "trailing"]
      = Except.ok (Json.str "Error: Power::infy: message") := by
  have h := (evaluate_enriches_sentinel_response (readyState 9000) 9000 "1/0"
      WolframEvaluationMode.plain none none
      ["[Kernel] debug", "", "Power::infy: message", "trailing"] rfl rfl).2
      "Power::infy: message" ["trailing"] (by decide)
  have e : ("Error: " ++
      ((["Power::infy: message", "trailing"].find? fun m => jsIncludes m "::").getD
        "Power::infy: message")) = "Error: Power::infy: message" := by decide
  rw [e] at h
  exact h

/-- Counterexample to claim C2 as stated: `restart` never clears
`systemNames`, so with a non-empty pre-restart cache the old names survive the
restart and the post-restart `getSystemNames` call is a cache hit that sends no
completion request at all (count `0`, not `1`), leaving the fresh kernel's
names unfetched. -/
theorem restart_fresh_cache_counterexample :
    (restart { initialServiceState with
        systemNames := [Json.str "Sin"], port := some 5, processAlive := true } 6
      (Except.ok (Json.arr [Json.str "Cos"]))).1.systemNames = [Json.str "Sin"] ∧
    (restart { initialServiceState with
        systemNames := [Json.str "Sin"], port := some 5, processAlive := true } 6
      (Except.ok (Json.arr [Json.str "Cos"]))).2 = 0 ∧
    (restart { initialServiceState with
        systemNames := [Json.str "Sin"], port := some 5, processAlive := true } 6
      (Except.ok (Json.arr [Json.str "Cos"]))).1.systemNames ≠ [Json.str "Cos"] := by
  refine ⟨rfl, rfl, ?_⟩
  have e : (restart { initialServiceState with
      systemNames := [Json.str "Sin"], port := some 5, processAlive := true } 6
    (Except.ok (Json.arr [Json.str "Cos"]))).1.systemNames = [Json.str "Sin"] := rfl
  rw [e]
  simp

/-- Claim C2 as amended: after a successful `restart` the port is fresh and the
disposed flag cleared, but the `SystemNamesCache` is not cleared — names cached
before the restart survive it and suppress the post-restart completion request;
only when the cache was empty does the restart issue exactly one completion
request and store its (array) result. -/
theorem restart_preserves_nonempty_cache (s : ServiceState) (newPort : Nat)
    (t : Except TransportFailure Json) :
    (restart s newPort t).1.port = some newPort ∧
    (restart s newPort t).1.disposed = false ∧
    (s.systemNames ≠ [] →
      (restart s newPort t).1.systemNames = s.systemNames ∧
        (restart s newPort t).2 = 0) ∧
    (s.systemNames = [] → (restart s newPort t).2 = 1) ∧
    (∀ names, s.systemNames = [] → t = Except.ok (Json.arr names) →
      (restart s newPort t).1.systemNames = names) := by
  have hrw : restart s newPort t =
      (let s3 : ServiceState :=
        { s with disposed := false, processAlive := true, port := some newPort }
       let r := getSystemNames s3 t
       (r.1, if r.2.2 then 1 else 0)) := by
    unfold restart
    rw [dispose_state]
  rw [hrw]
  cases hn : s.systemNames with
  | nil =>
    refine ⟨?_, ?_, fun hne => absurd rfl hne, fun _ => ?_, fun names _ ht => ?_⟩
    · cases t with
      | error e => simp [getSystemNames, sendRequest, Except.mapError]
      | ok j => cases j <;> simp [getSystemNames, sendRequest, Except.mapError]
    · cases t with
      | error e => simp [getSystemNames, sendRequest, Except.mapError]
      | ok j => cases j <;> simp [getSystemNames, sendRequest, Except.mapError]
    · cases t with
      | error e => simp [getSystemNames, sendRequest, Except.mapError]
      | ok j => cases j <;> simp [getSystemNames, sendRequest, Except.mapError]
    · rw [ht]
      simp [getSystemNames, sendRequest, Except.mapError]
  | cons a l =>
    refine ⟨by simp [getSystemNames], by simp [getSystemNames],
      fun _ => ⟨by simp [getSystemNames], by simp [getSystemNames]⟩,
      fun h0 => absurd h0 (by simp), fun names h0 _ => absurd h0 (by simp)⟩

/-- Witness for C2 (amended) at concrete inputs: a cached name survives a
restart with no request; an empty cache leads to exactly one request that
stores the fetched names. -/
theorem restart_preserves_nonempty_cache_witness :
    (restart { initialServiceState with
        systemNames := [Json.str "Sin"], port := some 5, processAlive := true } 6
      (Except.ok (Json.arr [Json.str "Cos"]))).1.systemNames = [Json.str "Sin"] ∧
    (restart (readyState 5) 6 (Except.ok (Json.arr [Json.str "Cos"]))).2 = 1 ∧
    (restart (readyState 5) 6
      (Except.ok (Json.arr [Json.str "Cos"]))).1.systemNames = [Json.str "Cos"] :=
  ⟨((restart_preserves_nonempty_cache { initialServiceState with
      systemNames := [Json.str "Sin"], port := some 5, processAlive := true } 6
      (Except.ok (Json.arr [Json.str "Cos"]))).2.2.1 (by simp)).1,
   (restart_preserves_nonempty_cache (readyState 5) 6
      (Except.ok (Json.arr [Json.str "Cos"]))).2.2.2.1 rfl,
   (restart_preserves_nonempty_cache (readyState 5) 6
      (Except.ok (Json.arr [Json.str "Cos"]))).2.2.2.2 [Json.str "Cos"] rfl rfl⟩

/-- Strings are empty exactly when their character lists are. -/
theorem string_data_isEmpty_eq_false {p : String} (h : p ≠ "") :
    p.data.isEmpty = false := by
  cases p with
  | mk l =>
    cases l with
    | nil => exact absurd rfl h
    | cons c cs => rfl

/-- Counterexample to claim C7 as stated: the source guards every string merge
and the restart trigger with JavaScript truthiness, so the supplied empty-string
path — which is non-`undefined` and differs from the current path — is neither
merged nor does it trigger a restart. -/
theorem updateConfig_claim_counterexample :
    ¬ updateConfigClaimedBehavior initialServiceState { wolframPath := some "" } true := by
  intro h
  have h2 := h.2.1 "" rfl (by decide) rfl
  have e : (updateConfig initialServiceState { wolframPath := some "" } true).2 = false := rfl
  rw [e] at h2
  cases h2

/-- Claim C7 as amended: `updateConfig` merges the supplied truthy (non-empty)
string fields and any supplied resolution number; empty-string or absent fields
keep their previous values; a restart is triggered exactly when restarting is
enabled and the supplied path is non-empty and differs from the previous path —
in particular an unchanged supplied path never triggers a restart. -/
theorem updateConfig_truthy_merge (s : ServiceState) (config : WolframConfig) (rk : Bool) :
    (config.wolframPath = some s.wolframPath → (updateConfig s config rk).2 = false) ∧
    (∀ p, config.wolframPath = some p → p ≠ "" → p ≠ s.wolframPath → rk = true →
      (updateConfig s config rk).2 = true) ∧
    (∀ p, config.wolframPath = some p → p ≠ "" →
      (updateConfig s config rk).1.wolframPath = p) ∧
    (config.wolframPath = none ∨ config.wolframPath = some "" →
      (updateConfig s config rk).1.wolframPath = s.wolframPath ∧
        (updateConfig s config rk).2 = false) ∧
    (∀ d, config.imageDirectory = some d → d ≠ "" →
      (updateConfig s config rk).1.imageDirectory = d) ∧
    (config.imageDirectory = none ∨ config.imageDirectory = some "" →
      (updateConfig s config rk).1.imageDirectory = s.imageDirectory) ∧
    (∀ n, config.imageResolution = some n →
      (updateConfig s config rk).1.imageResolution = n) ∧
    (config.imageResolution = none →
      (updateConfig s config rk).1.imageResolution = s.imageResolution) := by
  obtain ⟨cw, cd, cr⟩ := config
  have hdempty : ("" : String).data.isEmpty = true := rfl
  refine ⟨?_, ?_, ?_, ?_, ?_, ?_, ?_, ?_⟩
  · intro hcw
    have hcw' : cw = some s.wolframPath := hcw
    subst hcw'
    simp [updateConfig]
  · intro p hcw hpe hps hrk
    have hcw' : cw = some p := hcw
    subst hcw'
    subst hrk
    have hne := string_data_isEmpty_eq_false hpe
    simp [updateConfig, hne, bne_iff_ne]
    exact hps
  · intro p hcw hpe
    have hcw' : cw = some p := hcw
    subst hcw'
    have hne := string_data_isEmpty_eq_false hpe
    rcases cd with _ | d <;> rcases cr with _ | n <;>
      simp [updateConfig, hne, apply_ite]
  · intro hcw
    rcases hcw with hcw | hcw
    · have hcw' : cw = none := hcw
      subst hcw'
      rcases cd with _ | d <;> rcases cr with _ | n <;>
        simp [updateConfig, apply_ite]
    · have hcw' : cw = some "" := hcw
      subst hcw'
      rcases cd with _ | d <;> rcases cr with _ | n <;>
        simp [updateConfig, hdempty, apply_ite]
  · intro d hcd hde
    have hcd' : cd = some d := hcd
    subst hcd'
    have hne := string_data_isEmpty_eq_false hde
    rcases cw with _ | p <;> rcases cr with _ | n <;>
      simp [updateConfig, hne, apply_ite]
  · intro hcd
    rcases hcd with hcd | hcd
    · have hcd' : cd = none := hcd
      subst hcd'
      rcases cw with _ | p <;> rcases cr with _ | n <;>
        simp [updateConfig, apply_ite]
    · have hcd' : cd = some "" := hcd
      subst hcd'
      rcases cw with _ | p <;> rcases cr with _ | n <;>
        simp [updateConfig, hdempty, apply_ite]
  · intro n hcr
    have hcr' : cr = some n := hcr
    subst hcr'
    rcases cw with _ | p <;> rcases cd with _ | d
    · simp [updateConfig]
    · by_cases h2 : d.data.isEmpty <;> simp [updateConfig, h2]
    · by_cases h1 : p.data.isEmpty <;> simp [updateConfig, h1]
    · by_cases h1 : p.data.isEmpty <;> by_cases h2 : d.data.isEmpty <;>
        simp [updateConfig, h1, h2]
  · intro hcr
    have hcr' : cr = none := hcr
    subst hcr'
    rcases cw with _ | p <;> rcases cd with _ | d
    · simp [updateConfig]
    · by_cases h2 : d.data.isEmpty <;> simp [updateConfig, h2]
    · by_cases h1 : p.data.isEmpty <;> simp [updateConfig, h1]
    · by_cases h1 : p.data.isEmpty <;> by_cases h2 : d.data.isEmpty <;>
        simp [updateConfig, h1, h2]

/-- Witness for C7 (amended) at concrete inputs: unchanged path triggers no
restart; a changed non-empty path triggers one and is merged; a supplied
resolution is merged. -/
theorem updateConfig_truthy_merge_witness :
    (updateConfig initialServiceState { wolframPath := some "wolframscript" } true).2
        = false ∧
    (updateConfig initialServiceState { wolframPath := some "/opt/wls" } true).2 = true ∧
    (updateConfig initialServiceState
        { wolframPath := some "/opt/wls" } true).1.wolframPath = "/opt/wls" ∧
    (updateConfig initialServiceState
        { imageResolution := some 300 } true).1.imageResolution = 300 :=
  ⟨(updateConfig_truthy_merge initialServiceState
      { wolframPath := some "wolframscript" } true).1 rfl,
   (updateConfig_truthy_merge initialServiceState
      { wolframPath := some "/opt/wls" } true).2.1 "/opt/wls" rfl (by decide) (by decide) rfl,
   (updateConfig_truthy_merge initialServiceState
      { wolframPath := some "/opt/wls" } true).2.2.1 "/opt/wls" rfl (by decide),
   (updateConfig_truthy_merge initialServiceState
      { imageResolution := some 300 } true).2.2.2.2.2.2.1 300 rfl⟩

/-- Once the port has been found, a stdout chunk leaves the scan state
untouched: the buffer is not extended and no further scan happens. -/
theorem stdoutStep_found (st : PortScanState) (c : String) (h : st.portFound = true) :
    stdoutStep st c = st := by
  simp [stdoutStep, h]

/-- Once the port has been found, any sequence of further chunks leaves the
scan state untouched. -/
theorem foldl_stdoutStep_found (l : List String) (st : PortScanState)
    (h : st.portFound = true) : l.foldl stdoutStep st = st := by
  induction l with
  | nil => rfl
  | cons c cs ih =>
    rw [List.foldl_cons, stdoutStep_found st c h]
    exact ih

/-- Main induction for port discovery: starting from an unmatched buffer `b`,
if the buffer first matches after exactly `k` more chunks, the fold stops
scanning there with that match's port. -/
theorem scan_first_match (l : List String) : ∀ (b : String) (k n : Nat),
    findPortMatch b = none →
    findPortMatch (b ++ joinAll (l.take k)) = some n →
    (∀ j, j < k → findPortMatch (b ++ joinAll (l.take j)) = none) →
    l.foldl stdoutStep
        { stdoutBuffer := b, portFound := false, port := none, resolved := false } =
      { stdoutBuffer := b ++ joinAll (l.take k), portFound := true, port := some n,
        resolved := true } := by
  induction l with
  | nil =>
    intro b k n hb hmatch _
    exfalso
    rw [List.take_nil] at hmatch
    simp only [joinAll, String.append_empty, hb] at hmatch
    exact Option.noConfusion hmatch
  | cons c cs ih =>
    intro b k n hb hmatch hbefore
    cases k with
    | zero =>
      exfalso
      rw [List.take_zero] at hmatch
      simp only [joinAll, String.append_empty, hb] at hmatch
      exact Option.noConfusion hmatch
    | succ k' =>
      simp only [List.take_succ_cons, joinAll] at hmatch
      rw [List.foldl_cons]
      cases hfm : findPortMatch (b ++ c) with
      | none =>
        have hstep : stdoutStep
            { stdoutBuffer := b, portFound := false, port := none, resolved := false } c =
            { stdoutBuffer := b ++ c, portFound := false, port := none,
              resolved := false } := by
          simp [stdoutStep, hfm]
        rw [hstep]
        have hmatch' : findPortMatch ((b ++ c) ++ joinAll (cs.take k')) = some n := by
          rw [String.append_assoc]
          exact hmatch
        have hbefore' : ∀ j, j < k' →
            findPortMatch ((b ++ c) ++ joinAll (cs.take j)) = none := by
          intro j hj
          have h1 := hbefore (j + 1) (by omega)
          simp only [List.take_succ_cons, joinAll] at h1
          rw [String.append_assoc]
          exact h1
        rw [ih (b ++ c) k' n hfm hmatch' hbefore']
        rw [List.take_succ_cons]
        simp only [joinAll, String.append_assoc]
      | some m =>
        cases k' with
        | zero =>
          have hmc : findPortMatch (b ++ c) = some n := by
            simpa only [List.take_zero, joinAll, String.append_empty] using hmatch
          have hmn : m = n := by
            rw [hfm] at hmc
            exact Option.some.inj hmc
          have hstep : stdoutStep
              { stdoutBuffer := b, portFound := false, port := none, resolved := false } c =
              { stdoutBuffer := b ++ c, portFound := true, port := some m,
                resolved := true } := by
            simp [stdoutStep, hfm]
          rw [hstep, foldl_stdoutStep_found cs _ rfl, hmn]
          simp only [List.take_succ_cons, List.take_zero, joinAll, String.append_empty]
        | succ k'' =>
          exfalso
          have h1 := hbefore (0 + 1) (by omega)
          simp only [Nat.zero_add, List.take_succ_cons, List.take_zero, joinAll,
            String.append_empty] at h1
          rw [hfm] at h1
          cases h1

/-- Claim C3: once found, the port-discovery state ignores all later stdout
chunks; and if the accumulated buffer first matches `PORT:` + digits after
chunk `k` (no strict prefix of the chunk sequence matched before), the final
scan state has exactly that port, the startup promise resolved, and a buffer
frozen at the match point — later chunks neither extend the buffer nor change
the port. -/
theorem port_discovery_first_match (chunks : List String) (k n : Nat)
    (hmatch : findPortMatch (joinAll (chunks.take k)) = some n)
    (hbefore : ∀ j, j < k → findPortMatch (joinAll (chunks.take j)) = none) :
    (∀ (st : PortScanState) (c : String), st.portFound = true → stdoutStep st c = st) ∧
    runScan chunks =
      { stdoutBuffer := joinAll (chunks.take k), portFound := true, port := some n,
        resolved := true } := by
  have hm' : findPortMatch ("" ++ joinAll (chunks.take k)) = some n := by
    rw [String.empty_append]
    exact hmatch
  have hb' : ∀ j, j < k → findPortMatch ("" ++ joinAll (chunks.take j)) = none := by
    intro j hj
    rw [String.empty_append]
    exact hbefore j hj
  have h := scan_first_match chunks "" k n rfl hm' hb'
  refine ⟨stdoutStep_found, ?_⟩
  unfold runScan initialScanState
  rw [h]
  simp [String.empty_append]

/-- Witness for C3 at a concrete chunk sequence: the marker completes in the
second chunk (`"PO"`, `"RT:12"`), fixing port 12; the later chunk `"3"` is
neither scanned nor appended — the port stays 12, not 123. -/
theorem port_discovery_first_match_witness :
    runScan ["PO", "RT:12", "3"] =
      { stdoutBuffer := "PORT:12", portFound := true, port := some 12,
        resolved := true } := by
  have h := (port_discovery_first_match ["PO", "RT:12", "3"] 2 12 (by decide)
    (by decide)).2
  exact h.trans (by decide)

end WolfTeX
